import Mathlib

/-!
Shallow embedding of the STRINGmcp bridge (src/stringmcp/main.py):
a JSON value model with Python-style dynamic operations, the
StringDBBridge HTTP client, and the StringMCPServer JSON-RPC dispatch,
together with theorems about the server's observable behaviour.
-/

/-- JSON values as produced by json.loads; also used to model the dynamic
Python values that flow through the server (null plays the role of None). -/
inductive Json where
  | null : Json
  | bool : Bool → Json
  | num : Int → Json
  | str : String → Json
  | arr : List Json → Json
  | obj : List (String × Json) → Json

mutual
/-- Structural equality test for Json values. -/
def Json.beq : Json → Json → Bool
  | .null, .null => true
  | .bool a, .bool b => a == b
  | .num a, .num b => a == b
  | .str a, .str b => a == b
  | .arr a, .arr b => Json.beqList a b
  | .obj a, .obj b => Json.beqObj a b
  | _, _ => false

def Json.beqList : List Json → List Json → Bool
  | [], [] => true
  | x :: xs, y :: ys => Json.beq x y && Json.beqList xs ys
  | _, _ => false

def Json.beqObj : List (String × Json) → List (String × Json) → Bool
  | [], [] => true
  | (k, v) :: xs, (l, w) :: ys => k == l && Json.beq v w && Json.beqObj xs ys
  | _, _ => false
end

mutual
theorem Json.beq_iff : ∀ (a b : Json), (Json.beq a b = true) ↔ a = b
  | .null, b => by cases b <;> simp [Json.beq]
  | .bool x, b => by cases b <;> simp [Json.beq]
  | .num x, b => by cases b <;> simp [Json.beq]
  | .str x, b => by cases b <;> simp [Json.beq]
  | .arr xs, b => by
      cases b <;> simp [Json.beq]
      exact Json.beqList_iff xs _
  | .obj kvs, b => by
      cases b <;> simp [Json.beq]
      exact Json.beqObj_iff kvs _

theorem Json.beqList_iff : ∀ (xs ys : List Json), (Json.beqList xs ys = true) ↔ xs = ys
  | [], ys => by cases ys <;> simp [Json.beqList]
  | x :: xs, ys => by
      cases ys with
      | nil => simp [Json.beqList]
      | cons y ys =>
          simp [Json.beqList, Json.beq_iff x y, Json.beqList_iff xs ys]

theorem Json.beqObj_iff : ∀ (xs ys : List (String × Json)),
    (Json.beqObj xs ys = true) ↔ xs = ys
  | [], ys => by cases ys <;> simp [Json.beqObj]
  | (k, v) :: xs, ys => by
      cases ys with
      | nil => simp [Json.beqObj]
      | cons y ys =>
          obtain ⟨l, w⟩ := y
          simp [Json.beqObj, Json.beq_iff v w, Json.beqObj_iff xs ys, and_assoc,
            Prod.ext_iff]
end

instance : DecidableEq Json := fun a b =>
  decidable_of_iff (Json.beq a b = true) (Json.beq_iff a b)

/-- Python type name of a value, as used in AttributeError messages. -/
def Json.typeName : Json → String
  | .null => "NoneType"
  | .bool _ => "bool"
  | .num _ => "int"
  | .str _ => "str"
  | .arr _ => "list"
  | .obj _ => "dict"

/-- Python truthiness: bool(v) is False for None, False, 0, empty string,
empty list and empty dict. -/
def Json.isFalsy : Json → Bool
  | .null => true
  | .bool b => !b
  | .num i => i == 0
  | .str s => s.isEmpty
  | .arr xs => xs.isEmpty
  | .obj kvs => kvs.isEmpty

def Json.isTruthy (v : Json) : Bool := !v.isFalsy

def Json.isArr : Json → Bool
  | .arr _ => true
  | _ => false

mutual
/-- Python repr() of a value. -/
def Json.pyRepr : Json → String
  | .null => "None"
  | .bool b => if b then "True" else "False"
  | .num i => toString i
  | .str s => "\x27" ++ s ++ "\x27"
  | .arr xs => "[" ++ Json.pyReprList xs ++ "]"
  | .obj kvs => "\x7b" ++ Json.pyReprObj kvs ++ "\x7d"

def Json.pyReprList : List Json → String
  | [] => ""
  | [x] => Json.pyRepr x
  | x :: xs => Json.pyRepr x ++ ", " ++ Json.pyReprList xs

def Json.pyReprObj : List (String × Json) → String
  | [] => ""
  | [(k, v)] => "\x27" ++ k ++ "\x27: " ++ Json.pyRepr v
  | (k, v) :: kvs => "\x27" ++ k ++ "\x27: " ++ Json.pyRepr v ++ ", " ++ Json.pyReprObj kvs
end

/-- Python str() of a value: identity on strings, repr-like elsewhere. -/
def Json.pyStr : Json → String
  | .str s => s
  | v => v.pyRepr

/-- Python exceptions that can arise in the bridge and the server:
requests.RequestException (which HTTPError extends), ValueError,
AttributeError, and any other Exception (TypeError etc.). -/
inductive PyExn where
  | requestException : String → PyExn
  | valueError : String → PyExn
  | attributeError : String → PyExn
  | other : String → PyExn
deriving DecidableEq

/-- Python str(e) for the modelled exceptions. -/
def PyExn.msg : PyExn → String
  | .requestException m => m
  | .valueError m => m
  | .attributeError m => m
  | .other m => m

/-- Python v.get(k, default): association lookup on a dict, AttributeError
on any non-dict value.  A key present with value null is returned as null
(the default only applies to an absent key). -/
def Json.pyGet (v : Json) (k : String) (default : Json := Json.null) :
    Except PyExn Json :=
  match v with
  | .obj kvs => .ok ((kvs.lookup k).getD default)
  | w => .error (.attributeError (w.typeName ++ " object has no attribute get"))

/-- Pure lookup-with-default on an object; used in theorem statements. -/
def Json.lookupD (v : Json) (k : String) (d : Json) : Json :=
  match v with
  | .obj kvs => (kvs.lookup k).getD d
  | _ => d

/-- Python sep.join over a list of strings. -/
def pyJoin (sep : String) : List String → String
  | [] => ""
  | [x] => x
  | x :: xs => x ++ sep ++ pyJoin sep xs

/-- Elements of a joined iterable must all be str in Python. -/
def pyStrElems : List Json → Except PyExn (List String)
  | [] => .ok []
  | .str s :: rest => (pyStrElems rest).map (fun t => s :: t)
  | _ :: _ => .error (.other "sequence item: expected str instance")

/-- Python "%0d".join(identifiers): joins a list of strings; a string is
itself an iterable of one-character strings; a dict joins its keys;
other values raise TypeError. -/
def pyJoinIds (v : Json) : Except PyExn String :=
  match v with
  | .arr xs => (pyStrElems xs).map (pyJoin "%0d")
  | .str s => .ok (pyJoin "%0d" (s.toList.map (fun c => String.singleton c)))
  | .obj kvs => .ok (pyJoin "%0d" (kvs.map (fun kv => kv.1)))
  | w => .error (.other ("can only join an iterable, not " ++ w.typeName))

/-- Python int(v): bools and ints convert, numeric strings parse
(ValueError otherwise), anything else raises TypeError. -/
def pyToInt : Json → Except PyExn Int
  | .bool b => .ok (if b then 1 else 0)
  | .num i => .ok i
  | .str s =>
      match s.trim.toInt? with
      | some i => .ok i
      | none => .error (.valueError ("invalid literal for int() with base 10: " ++ s))
  | w => .error (.other ("int() argument must be a string or a number, not " ++ w.typeName))

/-- The OutputFormat enum of the bridge. -/
inductive OutputFormat where
  | TSV | TSV_NO_HEADER | JSON | XML | PSI_MI | PSI_MI_TAB
deriving DecidableEq

def OutputFormat.value : OutputFormat → String
  | .TSV => "tsv"
  | .TSV_NO_HEADER => "tsv-no-header"
  | .JSON => "json"
  | .XML => "xml"
  | .PSI_MI => "psi-mi"
  | .PSI_MI_TAB => "psi-mi-tab"

/-- The StringConfig dataclass. -/
structure StringConfig where
  base_url : String
  version_url : String
  caller_identity : String
  delay : Rat
deriving DecidableEq

/-- The dataclass defaults of StringConfig. -/
def defaultConfig : StringConfig :=
  ⟨"https://string-db.org/api", "https://version-12-0.string-db.org/api",
    "string_mcp_bridge", 1⟩

/-- Outcome of one HTTP exchange as seen by requests.Session.get: either a
completed response (status code plus decoded body) or a connection-level
RequestException. -/
inductive HttpResult where
  | resp : Nat → Json → HttpResult
  | failure : String → HttpResult

/-- Outcome of the temporary-file image download. -/
inductive DlResult where
  | ok : String → DlResult
  | failure : String → DlResult

/-- Oracle for the external world: the remote STRING service (parameterised
GETs) and the image-download path (GET of a raw URL to a temp file). -/
structure World where
  http : String → List (String × Json) → HttpResult
  dl : String → DlResult

/-- Observable side effects of the bridge. -/
inductive Event where
  | httpGet : String → List (String × Json) → Event
  | sleep : Rat → Event
  | download : String → Event
deriving DecidableEq

/-- Python dict.setdefault: append the pair at the end iff the key is absent. -/
def setdefault (p : List (String × Json)) (k : String) (v : Json) :
    List (String × Json) :=
  if (p.lookup k).isSome then p else p ++ [(k, v)]

/-- StringDBBridge._get: build the URL, default caller_identity, perform the
GET, raise_for_status (HTTPError for 4xx/5xx), then sleep the configured
delay and return the decoded body.  On the error paths the sleep does not
happen because raise_for_status raises first. -/
def bridgeGet (cfg : StringConfig) (w : World) (endpoint : String)
    (fmt : OutputFormat) (params : List (String × Json)) :
    Except PyExn Json × List Event :=
  let url := cfg.version_url ++ "/" ++ fmt.value ++ "/" ++ endpoint
  let ps := setdefault params "caller_identity" (Json.str cfg.caller_identity)
  match w.http url ps with
  | .failure msg => (.error (.requestException msg), [.httpGet url ps])
  | .resp status body =>
      if 400 ≤ status ∧ status < 600 then
        (.error (.requestException ("HTTP " ++ toString status)), [.httpGet url ps])
      else
        (.ok body, [.httpGet url ps, .sleep cfg.delay])

/-- StringDBBridge._download_image: GET the raw URL and persist to a
temporary file, returning its path. -/
def download_image (w : World) (url : String) : Except PyExn String × List Event :=
  match w.dl url with
  | .ok path => (.ok path, [Event.download url])
  | .failure msg => (.error (.requestException msg), [Event.download url])

/-- StringDBBridge.map_identifiers.  Arguments are the dynamic Python values
the server passes in; null plays the role of None. -/
def map_identifiers (w : World) (cfg : StringConfig)
    (identifiers species echo_query : Json) : Except PyExn Json × List Event :=
  if identifiers.isFalsy then
    (.error (.valueError "identifiers list cannot be empty"), [])
  else
    match pyJoinIds identifiers with
    | .error e => (.error e, [])
    | .ok joined =>
      match pyToInt echo_query with
      | .error e => (.error e, [])
      | .ok n =>
        let p := [("identifiers", Json.str joined), ("echo_query", Json.num n)]
        let p := if species = Json.null then p else p ++ [("species", species)]
        match bridgeGet cfg w "get_string_ids" OutputFormat.JSON p with
        | (.ok data, evs) => (.ok (if data.isArr then data else Json.arr []), evs)
        | (.error e, evs) => (.error e, evs)

/-- StringDBBridge.get_network_interactions. -/
def get_network_interactions (w : World) (cfg : StringConfig)
    (identifiers species required_score add_nodes network_type : Json) :
    Except PyExn Json × List Event :=
  if identifiers.isFalsy then
    (.error (.valueError "identifiers list cannot be empty"), [])
  else
    match pyJoinIds identifiers with
    | .error e => (.error e, [])
    | .ok joined =>
      let p := [("identifiers", Json.str joined), ("network_type", network_type),
        ("show_query_node_labels", Json.num 0)]
      let p := if species = Json.null then p else p ++ [("species", species)]
      let p := if required_score = Json.null then p
        else p ++ [("required_score", required_score)]
      let p := if add_nodes.isFalsy then p else p ++ [("add_nodes", add_nodes)]
      match bridgeGet cfg w "network" OutputFormat.JSON p with
      | (.ok data, evs) => (.ok (if data.isArr then data else Json.arr []), evs)
      | (.error e, evs) => (.error e, evs)

/-- StringDBBridge.get_functional_enrichment. -/
def get_functional_enrichment (w : World) (cfg : StringConfig)
    (identifiers species background_identifiers : Json) :
    Except PyExn Json × List Event :=
  if identifiers.isFalsy then
    (.error (.valueError "identifiers list cannot be empty"), [])
  else
    match pyJoinIds identifiers with
    | .error e => (.error e, [])
    | .ok joined =>
      let p := [("identifiers", Json.str joined)]
      let p := if species = Json.null then p else p ++ [("species", species)]
      match
        if background_identifiers.isFalsy then Except.ok p
        else
          match pyJoinIds background_identifiers with
          | .error e => Except.error e
          | .ok joinedBg =>
              .ok (p ++ [("background_string_identifiers", Json.str joinedBg)])
      with
      | .error e => (.error e, [])
      | .ok p =>
        match bridgeGet cfg w "enrichment" OutputFormat.JSON p with
        | (.ok data, evs) => (.ok (if data.isArr then data else Json.arr []), evs)
        | (.error e, evs) => (.error e, evs)

/-- StringDBBridge.get_version_info: a list body is returned as is, a dict
body is wrapped into a one-element list, anything else becomes []. -/
def get_version_info (w : World) (cfg : StringConfig) :
    Except PyExn Json × List Event :=
  match bridgeGet cfg w "version" OutputFormat.JSON [] with
  | (.ok data, evs) =>
      match data with
      | .arr xs => (.ok (.arr xs), evs)
      | .obj kvs => (.ok (.arr [.obj kvs]), evs)
      | _ => (.ok (.arr []), evs)
  | (.error e, evs) => (.error e, evs)

/-- Render one query parameter the way the f-string "k=v" does. -/
def renderParam (kv : String × Json) : String := kv.1 ++ "=" ++ kv.2.pyStr

/-- The query string built by joining "k=v" parts with "&": the values are
interpolated verbatim, no percent-encoding is applied. -/
def renderQuery (ps : List (String × Json)) : String :=
  pyJoin "&" (ps.map renderParam)

/-- The params dict of build_network_image_url: four fixed entries in
insertion order, then each optional entry appended in code order. -/
def networkImageParams (cfg : StringConfig) (joined : String)
    (species add_color_nodes add_white_nodes required_score
      network_type network_flavor highres svg : Json) :
    List (String × Json) :=
  [("identifiers", Json.str joined), ("network_type", network_type),
    ("network_flavor", network_flavor),
    ("caller_identity", Json.str cfg.caller_identity)]
  ++ (if species = Json.null then [] else [("species", species)])
  ++ (if add_color_nodes = Json.null then [] else [("add_color_nodes", add_color_nodes)])
  ++ (if add_white_nodes = Json.null then [] else [("add_white_nodes", add_white_nodes)])
  ++ (if required_score = Json.null then [] else [("required_score", required_score)])
  ++ (if highres.isTruthy then [("highres", Json.num 1)] else [])
  ++ (if svg.isTruthy then [("format", Json.str "svg")] else [])

/-- StringDBBridge.build_network_image_url: no HTTP request is made, the
URL string is returned. -/
def build_network_image_url (cfg : StringConfig)
    (identifiers : Json) (species : Json := Json.null)
    (add_color_nodes : Json := Json.null) (add_white_nodes : Json := Json.null)
    (required_score : Json := Json.null)
    (network_type : Json := Json.str "functional")
    (network_flavor : Json := Json.str "evidence")
    (highres : Json := Json.bool true) (svg : Json := Json.bool false) :
    Except PyExn String :=
  if identifiers.isFalsy then
    .error (.valueError "identifiers list cannot be empty")
  else
    match pyJoinIds identifiers with
    | .error e => .error e
    | .ok joined =>
        .ok (cfg.version_url ++ "/image/network" ++ "?" ++
          renderQuery (networkImageParams cfg joined species add_color_nodes
            add_white_nodes required_score network_type network_flavor highres svg))

/-- The params dict of build_enrichment_figure_url: four fixed entries in
insertion order, then each optional entry appended in code order. -/
def enrichmentFigureParams (cfg : StringConfig) (joined : String)
    (species category group_by_similarity color_palette number_of_term_shown
      x_axis highres svg : Json) : List (String × Json) :=
  [("identifiers", Json.str joined), ("species", species), ("category", category),
    ("caller_identity", Json.str cfg.caller_identity)]
  ++ (if group_by_similarity = Json.null then []
      else [("group_by_similarity", group_by_similarity)])
  ++ (if color_palette = Json.null then [] else [("color_palette", color_palette)])
  ++ (if number_of_term_shown = Json.null then []
      else [("number_of_term_shown", number_of_term_shown)])
  ++ (if x_axis = Json.null then [] else [("x_axis", x_axis)])
  ++ (if highres.isTruthy then [("highres", Json.num 1)] else [])
  ++ (if svg.isTruthy then [("format", Json.str "svg")] else [])

/-- StringDBBridge.build_enrichment_figure_url: no HTTP request is made, the
URL string is returned. -/
def build_enrichment_figure_url (cfg : StringConfig)
    (identifiers species : Json) (category : Json := Json.str "Process")
    (group_by_similarity : Json := Json.null) (color_palette : Json := Json.null)
    (number_of_term_shown : Json := Json.null) (x_axis : Json := Json.null)
    (highres : Json := Json.bool false) (svg : Json := Json.bool false) :
    Except PyExn String :=
  if identifiers.isFalsy then
    .error (.valueError "identifiers list cannot be empty")
  else
    match pyJoinIds identifiers with
    | .error e => .error e
    | .ok joined =>
        .ok (cfg.version_url ++ "/image/enrichment" ++ "?" ++
          renderQuery (enrichmentFigureParams cfg joined species category
            group_by_similarity color_palette number_of_term_shown x_axis highres svg))

/-- Escape one character the way json.dumps (ensure_ascii=False) does. -/
def jsonEscapeChar (c : Char) : String :=
  if c = Char.ofNat 34 then "\\\""
  else if c = Char.ofNat 92 then "\\\\"
  else if c = Char.ofNat 10 then "\\n"
  else if c = Char.ofNat 9 then "\\t"
  else if c = Char.ofNat 13 then "\\r"
  else if c = Char.ofNat 8 then "\\b"
  else if c = Char.ofNat 12 then "\\f"
  else if c.toNat < 32 then
    "\\u00" ++ String.singleton (Nat.digitChar (c.toNat / 16)) ++
      String.singleton (Nat.digitChar (c.toNat % 16))
  else String.singleton c

def jsonEscape (s : String) : String :=
  String.join (s.toList.map jsonEscapeChar)

/-- Two-space indent padding at a nesting level, as json.dumps(indent=2). -/
def pad (lvl : Nat) : String :=
  String.join (List.replicate (2 * lvl) " ")

mutual
/-- json.dumps(data, indent=2, ensure_ascii=False). -/
def dumps2 (lvl : Nat) : Json → String
  | .null => "null"
  | .bool b => if b then "true" else "false"
  | .num i => toString i
  | .str s => "\"" ++ jsonEscape s ++ "\""
  | .arr [] => "[]"
  | .arr xs => "[\n" ++ dumps2Arr (lvl + 1) xs ++ "\n" ++ pad lvl ++ "]"
  | .obj [] => "\x7b\x7d"
  | .obj kvs => "\x7b\n" ++ dumps2Obj (lvl + 1) kvs ++ "\n" ++ pad lvl ++ "\x7d"

def dumps2Arr (lvl : Nat) : List Json → String
  | [] => ""
  | [x] => pad lvl ++ dumps2 lvl x
  | x :: xs => pad lvl ++ dumps2 lvl x ++ ",\n" ++ dumps2Arr lvl xs

def dumps2Obj (lvl : Nat) : List (String × Json) → String
  | [] => ""
  | [(k, v)] => pad lvl ++ "\"" ++ jsonEscape k ++ "\": " ++ dumps2 lvl v
  | (k, v) :: kvs =>
      pad lvl ++ "\"" ++ jsonEscape k ++ "\": " ++ dumps2 lvl v ++ ",\n" ++
        dumps2Obj lvl kvs
end

/-- StringMCPServer._text_block. -/
def text_block (t : String) : Json :=
  .obj [("type", .str "text"), ("text", .str t)]

/-- StringMCPServer._success_payload: list/dict data is pretty-printed with
a two-space indent, anything else is str()-ed. -/
def success_payload (data : Json) : Json :=
  let text :=
    match data with
    | .arr xs => dumps2 0 (.arr xs)
    | .obj kvs => dumps2 0 (.obj kvs)
    | v => v.pyStr
  .obj [("isError", .bool false), ("content", .arr [text_block text])]

/-- StringMCPServer._error_payload. -/
def error_payload (msg : String) : Json :=
  .obj [("isError", .bool true), ("content", .arr [text_block ("Error: " ++ msg)])]

/-- A JSON-RPC success response line. -/
def respResult (rid payload : Json) : Json :=
  .obj [("jsonrpc", .str "2.0"), ("id", rid), ("result", payload)]

/-- A JSON-RPC error response line. -/
def respError (rid err : Json) : Json :=
  .obj [("jsonrpc", .str "2.0"), ("id", rid), ("error", err)]

/-- StringMCPServer._send: nothing is written for a notification; otherwise
exactly one response carrying the request id and either the error or the
result (result or ⦃⦄ when absent), never both. -/
def sendResp (requestId : Option Json) (result : Option Json)
    (error : Option Json) : List Json :=
  match requestId with
  | none => []
  | some rid =>
      match error with
      | some err => [respError rid err]
      | none => [respResult rid (result.getD (Json.obj []))]

/-- The td helper of _handle_list_tools: the same schema object is stored
under both the parameters key and the legacy inputSchema key. -/
def td (name desc : String) (schema : Json) : Json :=
  .obj [("name", .str name), ("description", .str desc),
    ("parameters", schema), ("inputSchema", schema)]

/-- The common identifiers property spliced into every schema. -/
def common_ids_prop : List (String × Json) :=
  [("identifiers", .obj [("type", .str "array"),
    ("items", .obj [("type", .str "string")]),
    ("description", .str "Protein list")])]

/-- The static Tool Descriptor array returned by tools/list. -/
def toolDescriptors : List Json :=
  [td "map_identifiers" "Map protein identifiers to STRING IDs." (.obj
      [("type", .str "object"),
       ("properties", .obj (common_ids_prop ++
         [("species", .obj [("type", .str "integer")]),
          ("echo_query", .obj [("type", .str "boolean")])])),
       ("required", .arr [.str "identifiers"])]),
   td "get_network_interactions" "Retrieve STRING interaction edges." (.obj
      [("type", .str "object"),
       ("properties", .obj (common_ids_prop ++
         [("species", .obj [("type", .str "integer")]),
          ("required_score", .obj [("type", .str "integer")]),
          ("add_nodes", .obj [("type", .str "integer")]),
          ("network_type", .obj [("type", .str "string"),
            ("enum", .arr [.str "functional", .str "physical"])])])),
       ("required", .arr [.str "identifiers"])]),
   td "get_functional_enrichment" "Perform GO / pathway enrichment on a protein set." (.obj
      [("type", .str "object"),
       ("properties", .obj (common_ids_prop ++
         [("species", .obj [("type", .str "integer")]),
          ("background_identifiers", .obj [("type", .str "array"),
            ("items", .obj [("type", .str "string")])])])),
       ("required", .arr [.str "identifiers"])]),
   td "get_version_info" "Return the current STRING database version." (.obj
      [("type", .str "object"), ("properties", .obj [])]),
   td "get_network_image" "Return URL of STRING network image" (.obj
      [("type", .str "object"),
       ("properties", .obj (common_ids_prop ++
         [("species", .obj [("type", .str "integer")]),
          ("highres", .obj [("type", .str "boolean")]),
          ("svg", .obj [("type", .str "boolean")]),
          ("network_type", .obj [("type", .str "string"),
            ("enum", .arr [.str "functional", .str "physical"])]),
          ("network_flavor", .obj [("type", .str "string"),
            ("enum", .arr [.str "evidence", .str "confidence", .str "actions"])]),
          ("required_score", .obj [("type", .str "integer")]),
          ("add_color_nodes", .obj [("type", .str "integer")]),
          ("add_white_nodes", .obj [("type", .str "integer")]),
          ("download_image", .obj [("type", .str "boolean")])])),
       ("required", .arr [.str "identifiers"])]),
   td "get_enrichment_figure" "Return URL of enrichment scatter figure" (.obj
      [("type", .str "object"),
       ("properties", .obj (common_ids_prop ++
         [("species", .obj [("type", .str "integer")]),
          ("category", .obj [("type", .str "string")]),
          ("group_by_similarity", .obj [("type", .str "number")]),
          ("color_palette", .obj [("type", .str "string")]),
          ("number_of_term_shown", .obj [("type", .str "integer")]),
          ("x_axis", .obj [("type", .str "string")]),
          ("highres", .obj [("type", .str "boolean")]),
          ("svg", .obj [("type", .str "boolean")]),
          ("download_image", .obj [("type", .str "boolean")])])),
       ("required", .arr [.str "identifiers", .str "species"])])]

/-- The map_identifiers branch of _handle_call_tool (inside the try). -/
def branchMapIdentifiers (w : World) (cfg : StringConfig) (arguments : Json) :
    Except PyExn Json × List Event :=
  match arguments.pyGet "identifiers" (.arr []) with
  | .error e => (.error e, [])
  | .ok ids =>
    if ids.isFalsy then
      (.error (.valueError "identifiers parameter is required and cannot be empty"), [])
    else
      match arguments.pyGet "species" with
      | .error e => (.error e, [])
      | .ok species =>
        match arguments.pyGet "echo_query" (.bool false) with
        | .error e => (.error e, [])
        | .ok echo =>
          match map_identifiers w cfg ids species echo with
          | (.ok data, evs) => (.ok (success_payload data), evs)
          | (.error e, evs) => (.error e, evs)

/-- The get_network_interactions branch of _handle_call_tool. -/
def branchNetworkInteractions (w : World) (cfg : StringConfig) (arguments : Json) :
    Except PyExn Json × List Event :=
  match arguments.pyGet "identifiers" (.arr []) with
  | .error e => (.error e, [])
  | .ok ids =>
    if ids.isFalsy then
      (.error (.valueError "identifiers parameter is required and cannot be empty"), [])
    else
      match arguments.pyGet "species" with
      | .error e => (.error e, [])
      | .ok species =>
        match arguments.pyGet "required_score" with
        | .error e => (.error e, [])
        | .ok required_score =>
          match arguments.pyGet "add_nodes" (.num 0) with
          | .error e => (.error e, [])
          | .ok add_nodes =>
            match arguments.pyGet "network_type" (.str "functional") with
            | .error e => (.error e, [])
            | .ok network_type =>
              match get_network_interactions w cfg ids species required_score
                  add_nodes network_type with
              | (.ok data, evs) => (.ok (success_payload data), evs)
              | (.error e, evs) => (.error e, evs)

/-- The get_functional_enrichment branch of _handle_call_tool. -/
def branchFunctionalEnrichment (w : World) (cfg : StringConfig) (arguments : Json) :
    Except PyExn Json × List Event :=
  match arguments.pyGet "identifiers" (.arr []) with
  | .error e => (.error e, [])
  | .ok ids =>
    if ids.isFalsy then
      (.error (.valueError "identifiers parameter is required and cannot be empty"), [])
    else
      match arguments.pyGet "species" with
      | .error e => (.error e, [])
      | .ok species =>
        match arguments.pyGet "background_identifiers" with
        | .error e => (.error e, [])
        | .ok background =>
          match get_functional_enrichment w cfg ids species background with
          | (.ok data, evs) => (.ok (success_payload data), evs)
          | (.error e, evs) => (.error e, evs)

/-- The get_version_info branch of _handle_call_tool. -/
def branchVersionInfo (w : World) (cfg : StringConfig) :
    Except PyExn Json × List Event :=
  match get_version_info w cfg with
  | (.ok data, evs) => (.ok (success_payload data), evs)
  | (.error e, evs) => (.error e, evs)

/-- The get_network_image branch of _handle_call_tool: note that the
dispatch passes highres and svg with default True, overriding the
builder's own svg default of False. -/
def branchNetworkImage (w : World) (cfg : StringConfig) (arguments : Json) :
    Except PyExn Json × List Event :=
  match arguments.pyGet "identifiers" (.arr []) with
  | .error e => (.error e, [])
  | .ok ids =>
    if ids.isFalsy then
      (.error (.valueError "identifiers parameter is required and cannot be empty"), [])
    else
      match arguments.pyGet "species" with
      | .error e => (.error e, [])
      | .ok species =>
        match arguments.pyGet "add_color_nodes" with
        | .error e => (.error e, [])
        | .ok add_color_nodes =>
          match arguments.pyGet "add_white_nodes" with
          | .error e => (.error e, [])
          | .ok add_white_nodes =>
            match arguments.pyGet "required_score" with
            | .error e => (.error e, [])
            | .ok required_score =>
              match arguments.pyGet "network_type" (.str "functional") with
              | .error e => (.error e, [])
              | .ok network_type =>
                match arguments.pyGet "network_flavor" (.str "evidence") with
                | .error e => (.error e, [])
                | .ok network_flavor =>
                  match arguments.pyGet "highres" (.bool true) with
                  | .error e => (.error e, [])
                  | .ok highres =>
                    match arguments.pyGet "svg" (.bool true) with
                    | .error e => (.error e, [])
                    | .ok svg =>
                      match build_network_image_url cfg ids species add_color_nodes
                          add_white_nodes required_score network_type network_flavor
                          highres svg with
                      | .error e => (.error e, [])
                      | .ok url =>
                        match arguments.pyGet "download_image" with
                        | .error e => (.error e, [])
                        | .ok dl =>
                          if dl.isTruthy then
                            match download_image w url with
                            | (.ok path, evs) =>
                                (.ok (success_payload (.obj [("image_path", .str path)])), evs)
                            | (.error e, evs) => (.error e, evs)
                          else
                            (.ok (success_payload (.obj [("image_url", .str url)])), [])

/-- The get_enrichment_figure branch of _handle_call_tool. -/
def branchEnrichmentFigure (w : World) (cfg : StringConfig) (arguments : Json) :
    Except PyExn Json × List Event :=
  match arguments.pyGet "identifiers" (.arr []) with
  | .error e => (.error e, [])
  | .ok ids =>
    if ids.isFalsy then
      (.error (.valueError "identifiers parameter is required and cannot be empty"), [])
    else
      match arguments.pyGet "species" with
      | .error e => (.error e, [])
      | .ok species =>
        if species = Json.null then
          (.error (.valueError "species parameter is required for get_enrichment_figure"), [])
        else
          match arguments.pyGet "category" (.str "Process") with
          | .error e => (.error e, [])
          | .ok category =>
            match arguments.pyGet "group_by_similarity" with
            | .error e => (.error e, [])
            | .ok group_by_similarity =>
              match arguments.pyGet "color_palette" with
              | .error e => (.error e, [])
              | .ok color_palette =>
                match arguments.pyGet "number_of_term_shown" with
                | .error e => (.error e, [])
                | .ok number_of_term_shown =>
                  match arguments.pyGet "x_axis" with
                  | .error e => (.error e, [])
                  | .ok x_axis =>
                    match arguments.pyGet "highres" (.bool false) with
                    | .error e => (.error e, [])
                    | .ok highres =>
                      match arguments.pyGet "svg" (.bool false) with
                      | .error e => (.error e, [])
                      | .ok svg =>
                        match build_enrichment_figure_url cfg ids species category
                            group_by_similarity color_palette number_of_term_shown
                            x_axis highres svg with
                        | .error e => (.error e, [])
                        | .ok url =>
                          match arguments.pyGet "download_image" with
                          | .error e => (.error e, [])
                          | .ok dl =>
                            if dl.isTruthy then
                              match download_image w url with
                              | (.ok path, evs) =>
                                  (.ok (success_payload (.obj [("image_path", .str path)])), evs)
                              | (.error e, evs) => (.error e, evs)
                            else
                              (.ok (success_payload (.obj [("image_url", .str url)])), [])

/-- The body of the try block of _handle_call_tool: the name dispatch chain
with the unknown-tool fallback. -/
def callToolBody (w : World) (cfg : StringConfig) (name arguments : Json) :
    Except PyExn Json × List Event :=
  if name = Json.str "map_identifiers" then branchMapIdentifiers w cfg arguments
  else if name = Json.str "get_network_interactions" then
    branchNetworkInteractions w cfg arguments
  else if name = Json.str "get_functional_enrichment" then
    branchFunctionalEnrichment w cfg arguments
  else if name = Json.str "get_version_info" then branchVersionInfo w cfg
  else if name = Json.str "get_network_image" then branchNetworkImage w cfg arguments
  else if name = Json.str "get_enrichment_figure" then
    branchEnrichmentFigure w cfg arguments
  else (.ok (error_payload ("Unknown tool: " ++ name.pyStr)), [])

/-- The except chain of _handle_call_tool: RequestException, then
ValueError, then any other Exception. -/
def exnHandlerText : PyExn → String
  | .requestException m => "HTTP request failed: " ++ m
  | .valueError m => m
  | .attributeError m => "Internal error: " ++ m
  | .other m => "Internal error: " ++ m

/-- StringMCPServer._handle_call_tool: name and arguments extraction sits
OUTSIDE the try block and can raise; everything inside the try is caught
and converted to an isError-true result response. -/
def handleCallTool (w : World) (cfg : StringConfig) (rid : Option Json)
    (params : Json) : Except PyExn (List Json × List Event) :=
  match params.pyGet "name" with
  | .error e => .error e
  | .ok name =>
    match params.pyGet "arguments" (.obj []) with
    | .error e => .error e
    | .ok arguments =>
      match callToolBody w cfg name arguments with
      | (.ok payload, evs) => .ok (sendResp rid (some payload) none, evs)
      | (.error e, evs) =>
          .ok (sendResp rid (some (error_payload (exnHandlerText e))) none, evs)

/-- The result object of _handle_initialize. -/
def initResult (v : Json) : Json :=
  .obj [("protocolVersion", v),
    ("capabilities", .obj [("tools", .obj [("executable", .bool true)])]),
    ("serverInfo", .obj [("name", .str "string-mcp"), ("version", .str "0.2.0")])]

/-- StringMCPServer._handle_initialize: echo the client protocolVersion
(default "2025-03-26"); params.get raises on a non-dict params. -/
def handleInit (rid : Option Json) (params : Json) :
    Except PyExn (List Json × List Event) :=
  match params.pyGet "protocolVersion" (.str "2025-03-26") with
  | .error e => .error e
  | .ok v => .ok (sendResp rid (some (initResult v)) none, [])

/-- StringMCPServer._handle_list_tools. -/
def handleListTools (rid : Option Json) : Except PyExn (List Json × List Event) :=
  .ok (sendResp rid (some (.obj [("tools", .arr toolDescriptors)])) none, [])

/-- One iteration of StringMCPServer.run on a parsed message: extract id,
method and params, silently skip notifications, dispatch requests.  The
Except.error outcome means an uncaught Python exception propagates out of
the loop (terminating the process). -/
def processMessage (w : World) (cfg : StringConfig) (req : Json) :
    Except PyExn (List Json × List Event) :=
  match req.pyGet "id" with
  | .error e => .error e
  | .ok idVal =>
    match req.pyGet "method" with
    | .error e => .error e
    | .ok methodVal =>
      match req.pyGet "params" (.obj []) with
      | .error e => .error e
      | .ok params =>
        if idVal = Json.null then .ok ([], [])
        else
          let rid := some idVal
          if methodVal = Json.str "initialize" then handleInit rid params
          else if methodVal = Json.str "tools/list" then handleListTools rid
          else if methodVal = Json.str "tools/call" then handleCallTool w cfg rid params
          else if methodVal = Json.str "resources/list" then
            .ok (sendResp rid (some (.obj [("resources", .arr [])])) none, [])
          else if methodVal = Json.str "prompts/list" then
            .ok (sendResp rid (some (.obj [("prompts", .arr [])])) none, [])
          else
            .ok (sendResp rid none (some (.obj [("code", .num (-32601)),
              ("message", .str ("Method not found: " ++ methodVal.pyStr))])), [])

/-! ## Concrete worlds and helper lemmas -/

/-- A world whose remote service always answers 200 with an empty JSON array
and whose downloads succeed. -/
def w0 : World :=
  ⟨fun _ _ => HttpResult.resp 200 (Json.arr []), fun _ => DlResult.ok "/tmp/img.png"⟩

/-- A world whose remote service always answers 404. -/
def w404 : World :=
  ⟨fun _ _ => HttpResult.resp 404 (Json.str "Not Found"),
    fun _ => DlResult.failure "connection refused"⟩

theorem pyJoin_append_last (sep a : String) :
    ∀ (xs : List String), xs ≠ [] →
      pyJoin sep (xs ++ [a]) = pyJoin sep xs ++ sep ++ a := by
  intro xs
  induction xs with
  | nil => intro h; exact absurd rfl h
  | cons x xs ih =>
    intro _
    cases xs with
    | nil => rfl
    | cons y ys =>
      have h2 := ih (by simp)
      simp only [List.cons_append] at h2 ⊢
      simp only [pyJoin]
      rw [h2]
      simp [String.append_assoc]

theorem renderQuery_append_last (ps : List (String × Json)) (kv : String × Json)
    (h : ps ≠ []) :
    renderQuery (ps ++ [kv]) = renderQuery ps ++ "&" ++ renderParam kv := by
  unfold renderQuery
  rw [List.map_append]
  exact pyJoin_append_last "&" (renderParam kv) (ps.map renderParam)
    (by simpa using h)

/-- On an object params, _handle_call_tool never raises: it emits exactly one
result response, and when the tool body raised the payload is the translated
error payload. -/
theorem handleCallTool_obj (w : World) (cfg : StringConfig) (rid : Json)
    (kvs : List (String × Json)) :
    ∃ payload evs, handleCallTool w cfg (some rid) (.obj kvs) =
        .ok ([respResult rid payload], evs) ∧
      (∀ e evs2,
        callToolBody w cfg ((kvs.lookup "name").getD Json.null)
            ((kvs.lookup "arguments").getD (Json.obj [])) = (.error e, evs2) →
          payload = error_payload (exnHandlerText e)) := by
  rcases h : callToolBody w cfg ((kvs.lookup "name").getD Json.null)
      ((kvs.lookup "arguments").getD (Json.obj [])) with ⟨r, evs⟩
  cases r with
  | ok p =>
      refine ⟨p, evs, ?_, ?_⟩
      · simp [handleCallTool, Json.pyGet, h, sendResp]
      · intro e evs2 he
        simp at he
  | error e =>
      refine ⟨error_payload (exnHandlerText e), evs, ?_, ?_⟩
      · simp [handleCallTool, Json.pyGet, h, sendResp]
      · intro e2 evs2 he
        simp only [Prod.mk.injEq, Except.error.injEq] at he
        rw [he.1]

theorem callToolBody_map (w : World) (cfg : StringConfig) (args : Json) :
    callToolBody w cfg (.str "map_identifiers") args =
      branchMapIdentifiers w cfg args := by
  unfold callToolBody
  rw [if_pos rfl]

theorem callToolBody_netint (w : World) (cfg : StringConfig) (args : Json) :
    callToolBody w cfg (.str "get_network_interactions") args =
      branchNetworkInteractions w cfg args := by
  unfold callToolBody
  rw [if_neg (by decide), if_pos rfl]

theorem callToolBody_enrich (w : World) (cfg : StringConfig) (args : Json) :
    callToolBody w cfg (.str "get_functional_enrichment") args =
      branchFunctionalEnrichment w cfg args := by
  unfold callToolBody
  rw [if_neg (by decide), if_neg (by decide), if_pos rfl]

theorem callToolBody_netimg (w : World) (cfg : StringConfig) (args : Json) :
    callToolBody w cfg (.str "get_network_image") args =
      branchNetworkImage w cfg args := by
  unfold callToolBody
  rw [if_neg (by decide), if_neg (by decide), if_neg (by decide),
    if_neg (by decide), if_pos rfl]

theorem callToolBody_enrichfig (w : World) (cfg : StringConfig) (args : Json) :
    callToolBody w cfg (.str "get_enrichment_figure") args =
      branchEnrichmentFigure w cfg args := by
  unfold callToolBody
  rw [if_neg (by decide), if_neg (by decide), if_neg (by decide),
    if_neg (by decide), if_neg (by decide), if_pos rfl]

theorem networkImageParams_keys (cfg : StringConfig) (joined : String)
    (sp acn awn rs nt nf hr sv : Json) :
    (networkImageParams cfg joined sp acn awn rs nt nf hr sv).map Prod.fst =
      ["identifiers", "network_type", "network_flavor", "caller_identity"]
      ++ (if sp = Json.null then [] else ["species"])
      ++ (if acn = Json.null then [] else ["add_color_nodes"])
      ++ (if awn = Json.null then [] else ["add_white_nodes"])
      ++ (if rs = Json.null then [] else ["required_score"])
      ++ (if hr.isTruthy then ["highres"] else [])
      ++ (if sv.isTruthy then ["format"] else []) := by
  unfold networkImageParams
  split_ifs <;> simp

theorem enrichmentFigureParams_keys (cfg : StringConfig) (joined : String)
    (sp cat gbs cp nts xa hr sv : Json) :
    (enrichmentFigureParams cfg joined sp cat gbs cp nts xa hr sv).map Prod.fst =
      ["identifiers", "species", "category", "caller_identity"]
      ++ (if gbs = Json.null then [] else ["group_by_similarity"])
      ++ (if cp = Json.null then [] else ["color_palette"])
      ++ (if nts = Json.null then [] else ["number_of_term_shown"])
      ++ (if xa = Json.null then [] else ["x_axis"])
      ++ (if hr.isTruthy then ["highres"] else [])
      ++ (if sv.isTruthy then ["format"] else []) := by
  unfold enrichmentFigureParams
  split_ifs <;> simp

/-- The six tool names the dispatcher knows. -/
def knownToolNames : List Json :=
  [.str "map_identifiers", .str "get_network_interactions",
   .str "get_functional_enrichment", .str "get_version_info",
   .str "get_network_image", .str "get_enrichment_figure"]

/-- The identifier-requiring tools among the dispatched ones. -/
def identifierTools : List Json :=
  [.str "map_identifiers", .str "get_network_interactions",
   .str "get_functional_enrichment", .str "get_network_image",
   .str "get_enrichment_figure"]

/-! ## Claim theorems -/

/-- A tools/call request (id 7) for a tool name with valid arguments. -/
def missingToolCall (n : String) : Json :=
  .obj [("jsonrpc", .str "2.0"), ("id", .num 7), ("method", .str "tools/call"),
    ("params", .obj [("name", .str n),
      ("arguments", .obj [("identifiers", .arr [.str "TP53"])])])]

/-- Claim C1: the spec says tools/list returns a descriptor for each of the
eleven tools and that a tools/call for each of them invokes the bridge.  The
code lists only six descriptors, and calling the five bridge-only tools
(get_interaction_partners, get_homology, get_homology_best,
get_functional_annotation, get_ppi_enrichment) takes the unknown-tool
branch: the module docstring names them as supported tools, so this is a
bug of the code. -/
theorem claim_C1_missing_tools :
    (toolDescriptors.map (fun d => Json.lookupD d "name" Json.null) =
      [.str "map_identifiers", .str "get_network_interactions",
       .str "get_functional_enrichment", .str "get_version_info",
       .str "get_network_image", .str "get_enrichment_figure"])
    ∧ processMessage w0 defaultConfig (missingToolCall "get_interaction_partners") =
        .ok ([respResult (.num 7)
          (error_payload "Unknown tool: get_interaction_partners")], [])
    ∧ processMessage w0 defaultConfig (missingToolCall "get_homology") =
        .ok ([respResult (.num 7) (error_payload "Unknown tool: get_homology")], [])
    ∧ processMessage w0 defaultConfig (missingToolCall "get_homology_best") =
        .ok ([respResult (.num 7) (error_payload "Unknown tool: get_homology_best")], [])
    ∧ processMessage w0 defaultConfig (missingToolCall "get_functional_annotation") =
        .ok ([respResult (.num 7)
          (error_payload "Unknown tool: get_functional_annotation")], [])
    ∧ processMessage w0 defaultConfig (missingToolCall "get_ppi_enrichment") =
        .ok ([respResult (.num 7) (error_payload "Unknown tool: get_ppi_enrichment")], []) :=
  ⟨rfl, rfl, rfl, rfl, rfl, rfl⟩

/-- Claim C3 counterexample: on a completed exchange with HTTP status 404
the client raises before the sleep, so no sleep event happens, refuting
"the sleep happens on the HTTP-error path as well". -/
theorem claim_C3_counterexample :
    bridgeGet defaultConfig w404 "network" OutputFormat.JSON [] =
      (.error (.requestException "HTTP 404"),
       [Event.httpGet "https://version-12-0.string-db.org/api/json/network"
          [("caller_identity", .str "string_mcp_bridge")]]) ∧
    Event.sleep defaultConfig.delay ∉
      (bridgeGet defaultConfig w404 "network" OutputFormat.JSON []).2 :=
  ⟨rfl, by decide⟩

/-- Claim C3 amended: the client sleeps the configured delay if and only if
the request returns successfully (completed with a non-raising status); on
the HTTP-error path raise_for_status raises first and no sleep happens. -/
theorem claim_C3_amended (cfg : StringConfig) (w : World) (endpoint : String)
    (fmt : OutputFormat) (params : List (String × Json)) :
    (Event.sleep cfg.delay ∈ (bridgeGet cfg w endpoint fmt params).2) ↔
      (∃ body, (bridgeGet cfg w endpoint fmt params).1 = Except.ok body) := by
  simp only [bridgeGet]
  cases hw : w.http (cfg.version_url ++ "/" ++ fmt.value ++ "/" ++ endpoint)
      (setdefault params "caller_identity" (Json.str cfg.caller_identity)) with
  | failure m => simp [hw]
  | resp st body =>
      by_cases hs : 400 ≤ st ∧ st < 600
      · simp [hw, hs]
      · simp [hw, hs]

/-- Claim C5: a parsed message whose id is absent or null is a notification;
the server writes nothing to stdout regardless of method, and no event
happens. -/
theorem claim_C5_notifications_silent (w : World) (cfg : StringConfig)
    (kvs : List (String × Json))
    (h : (kvs.lookup "id").getD Json.null = Json.null) :
    processMessage w cfg (.obj kvs) = .ok ([], []) := by
  simp [processMessage, Json.pyGet, h]

/-- Witness for C5 at the notifications/initialized scenario of the spec. -/
theorem claim_C5_witness :
    (([("jsonrpc", Json.str "2.0"),
        ("method", Json.str "notifications/initialized")].lookup "id").getD
      Json.null = Json.null) ∧
    processMessage w0 defaultConfig
      (.obj [("jsonrpc", Json.str "2.0"),
        ("method", Json.str "notifications/initialized")]) = .ok ([], []) :=
  ⟨by decide, claim_C5_notifications_silent w0 defaultConfig _ (by decide)⟩

/-- Claim C6: a tools/call whose name is not in the known tool set yields a
successful JSON-RPC response (a result, never an error member) whose payload
is the isError-true unknown-tool payload; no event happens. -/
theorem claim_C6_unknown_tool (w : World) (cfg : StringConfig) (rid : Json)
    (kvs : List (String × Json)) (name : Json)
    (hname : (kvs.lookup "name").getD Json.null = name)
    (h : name ∉ knownToolNames) :
    handleCallTool w cfg (some rid) (.obj kvs) =
      .ok ([respResult rid (error_payload ("Unknown tool: " ++ name.pyStr))], []) ∧
    Json.lookupD (error_payload ("Unknown tool: " ++ name.pyStr)) "isError"
      Json.null = Json.bool true := by
  refine ⟨?_, rfl⟩
  simp only [knownToolNames, List.mem_cons, List.not_mem_nil, or_false, not_or] at h
  obtain ⟨h1, h2, h3, h4, h5, h6⟩ := h
  simp [handleCallTool, Json.pyGet, callToolBody, hname, h1, h2, h3, h4, h5, h6,
    sendResp]

/-- Witness for C6 at a concrete unknown tool name. -/
theorem claim_C6_witness :
    ((Json.str "frobnicate") ∉ knownToolNames) ∧
    (handleCallTool w0 defaultConfig (some (.num 4))
        (.obj [("name", .str "frobnicate")]) =
      .ok ([respResult (.num 4) (error_payload "Unknown tool: frobnicate")], []) ∧
    Json.lookupD (error_payload "Unknown tool: frobnicate") "isError" Json.null
      = Json.bool true) :=
  ⟨by decide,
    claim_C6_unknown_tool w0 defaultConfig (.num 4) [("name", .str "frobnicate")]
      (.str "frobnicate") rfl (by decide)⟩

/-- Claim C8: every Tool Descriptor of tools/list carries structurally equal
values under parameters and inputSchema. -/
theorem claim_C8_dual_key :
    toolDescriptors.all
      (fun d => Json.beq (Json.lookupD d "parameters" Json.null)
        (Json.lookupD d "inputSchema" Json.null)) = true := by rfl

/-- Claim C2 counterexample: a tools/call request whose params member is not
an object raises AttributeError in name extraction, which sits outside the
try block, so the exception propagates out of the dispatch (terminating the
loop) and no response is written. -/
theorem claim_C2_counterexample :
    processMessage w0 defaultConfig
      (.obj [("jsonrpc", .str "2.0"), ("id", .num 1),
        ("method", .str "tools/call"), ("params", .num 5)]) =
      .error (.attributeError "int object has no attribute get") := rfl

/-- Claim C2 amended: for every tools/call request whose params member is an
object, whatever the arguments and whatever fault the tool body raises, the
handler catches it, emits exactly one result response and never raises; when
the body raised, the payload is the translated message with isError true. -/
theorem claim_C2_amended (w : World) (cfg : StringConfig) (rid : Json)
    (kvs : List (String × Json)) :
    ∃ payload evs, handleCallTool w cfg (some rid) (.obj kvs) =
        .ok ([respResult rid payload], evs) ∧
      (∀ e evs2, callToolBody w cfg ((kvs.lookup "name").getD Json.null)
          ((kvs.lookup "arguments").getD (Json.obj [])) = (.error e, evs2) →
        payload = error_payload (exnHandlerText e) ∧
        Json.lookupD payload "isError" Json.null = Json.bool true) := by
  obtain ⟨p, evs, h1, h2⟩ := handleCallTool_obj w cfg rid kvs
  exact ⟨p, evs, h1, fun e evs2 he =>
    ⟨h2 e evs2 he, by rw [h2 e evs2 he]; rfl⟩⟩

/-- Claim C4 counterexample: an initialize Request whose params member is
not an object raises AttributeError out of the handler, so no response line
at all is written for that Request. -/
theorem claim_C4_counterexample :
    processMessage w0 defaultConfig
      (.obj [("jsonrpc", .str "2.0"), ("id", .num 1),
        ("method", .str "initialize"), ("params", .num 5)]) =
      .error (.attributeError "int object has no attribute get") := rfl

/-- Claim C4 amended: for every Request (id present and non-null) whose
params member is absent or an object, the server writes exactly one response
carrying the request id and either a result or an error member, never
both. -/
theorem claim_C4_amended (w : World) (cfg : StringConfig)
    (kvs : List (String × Json)) (rid : Json)
    (hid : (kvs.lookup "id").getD Json.null = rid)
    (hnn : rid ≠ Json.null)
    (hp : kvs.lookup "params" = none ∨
      ∃ pkvs, kvs.lookup "params" = some (Json.obj pkvs)) :
    ∃ resp evs payload, processMessage w cfg (.obj kvs) = .ok ([resp], evs) ∧
      (resp = respResult rid payload ∨ resp = respError rid payload) := by
  have hparams : ∃ pkvs, (kvs.lookup "params").getD (Json.obj []) = Json.obj pkvs := by
    rcases hp with h | ⟨pkvs, h⟩
    · exact ⟨[], by rw [h]; rfl⟩
    · exact ⟨pkvs, by rw [h]; rfl⟩
  obtain ⟨pkvs, hpk⟩ := hparams
  simp only [processMessage, Json.pyGet, hid, hpk, hnn, if_false, ite_false]
  by_cases m1 : (kvs.lookup "method").getD Json.null = Json.str "initialize"
  · rw [if_pos m1]
    exact ⟨respResult rid (initResult ((pkvs.lookup "protocolVersion").getD
        (.str "2025-03-26"))), [],
      initResult ((pkvs.lookup "protocolVersion").getD (.str "2025-03-26")),
      by simp [handleInit, Json.pyGet, sendResp], Or.inl rfl⟩
  rw [if_neg m1]
  by_cases m2 : (kvs.lookup "method").getD Json.null = Json.str "tools/list"
  · rw [if_pos m2]
    exact ⟨respResult rid (.obj [("tools", .arr toolDescriptors)]), [],
      .obj [("tools", .arr toolDescriptors)], rfl, Or.inl rfl⟩
  rw [if_neg m2]
  by_cases m3 : (kvs.lookup "method").getD Json.null = Json.str "tools/call"
  · rw [if_pos m3]
    obtain ⟨p, evs, h1, _⟩ := handleCallTool_obj w cfg rid pkvs
    exact ⟨respResult rid p, evs, p, h1, Or.inl rfl⟩
  rw [if_neg m3]
  by_cases m4 : (kvs.lookup "method").getD Json.null = Json.str "resources/list"
  · rw [if_pos m4]
    exact ⟨respResult rid (.obj [("resources", .arr [])]), [],
      .obj [("resources", .arr [])], rfl, Or.inl rfl⟩
  rw [if_neg m4]
  by_cases m5 : (kvs.lookup "method").getD Json.null = Json.str "prompts/list"
  · rw [if_pos m5]
    exact ⟨respResult rid (.obj [("prompts", .arr [])]), [],
      .obj [("prompts", .arr [])], rfl, Or.inl rfl⟩
  rw [if_neg m5]
  exact ⟨respError rid (.obj [("code", .num (-32601)),
      ("message", .str ("Method not found: " ++
        ((kvs.lookup "method").getD Json.null).pyStr))]),
    [], .obj [("code", .num (-32601)),
      ("message", .str ("Method not found: " ++
        ((kvs.lookup "method").getD Json.null).pyStr))],
    rfl, Or.inr rfl⟩

/-- Witness for C4 at a concrete tools/list Request. -/
theorem claim_C4_witness :
    (([("jsonrpc", Json.str "2.0"), ("id", Json.num 5),
        ("method", Json.str "tools/list")].lookup "id").getD Json.null =
      Json.num 5) ∧
    (Json.num 5 ≠ Json.null) ∧
    (∃ resp evs payload,
      processMessage w0 defaultConfig
        (.obj [("jsonrpc", Json.str "2.0"), ("id", Json.num 5),
          ("method", Json.str "tools/list")]) = .ok ([resp], evs) ∧
      (resp = respResult (Json.num 5) payload ∨
        resp = respError (Json.num 5) payload)) :=
  ⟨by decide, by decide,
    claim_C4_amended w0 defaultConfig _ (Json.num 5) (by decide) (by decide)
      (Or.inl (by decide))⟩

/-- Claim C7 counterexample: get_homology is an identifier-requiring tool of
the spec's tool surface, yet a tools/call for it with an empty identifiers
array answers with the unknown-tool message, which does not mention the
missing/empty identifiers. -/
theorem claim_C7_counterexample :
    handleCallTool w0 defaultConfig (some (.num 2))
      (.obj [("name", .str "get_homology"),
        ("arguments", .obj [("identifiers", .arr [])])]) =
      .ok ([respResult (.num 2) (error_payload "Unknown tool: get_homology")], []) ∧
    ¬ ("identifiers".toList <:+: "Error: Unknown tool: get_homology".toList) :=
  ⟨rfl, by decide⟩

/-- Claim C7 amended: for each of the five dispatched identifier-requiring
tools, a tools/call whose identifiers argument is missing or an empty array
answers isError-true with the validation message (which mentions the
missing/empty identifiers), and no HTTP request or other event happens. -/
theorem claim_C7_amended (w : World) (cfg : StringConfig) (rid : Json)
    (kvs akvs : List (String × Json)) (name : Json)
    (hmem : name ∈ identifierTools)
    (hname : (kvs.lookup "name").getD Json.null = name)
    (hargs : (kvs.lookup "arguments").getD (Json.obj []) = Json.obj akvs)
    (hids : akvs.lookup "identifiers" = none ∨
      akvs.lookup "identifiers" = some (Json.arr [])) :
    handleCallTool w cfg (some rid) (.obj kvs) =
      .ok ([respResult rid
        (error_payload "identifiers parameter is required and cannot be empty")], []) ∧
    ("identifiers".toList <:+:
      "Error: identifiers parameter is required and cannot be empty".toList) := by
  refine ⟨?_, by decide⟩
  have hlook : (akvs.lookup "identifiers").getD (Json.arr []) = Json.arr [] := by
    rcases hids with h | h <;> rw [h] <;> rfl
  simp only [identifierTools, List.mem_cons, List.not_mem_nil, or_false] at hmem
  have hbody : callToolBody w cfg name (.obj akvs) =
      (.error (.valueError "identifiers parameter is required and cannot be empty"),
        []) := by
    rcases hmem with h | h | h | h | h <;> subst h
    · rw [callToolBody_map]
      simp [branchMapIdentifiers, Json.pyGet, hlook, Json.isFalsy]
    · rw [callToolBody_netint]
      simp [branchNetworkInteractions, Json.pyGet, hlook, Json.isFalsy]
    · rw [callToolBody_enrich]
      simp [branchFunctionalEnrichment, Json.pyGet, hlook, Json.isFalsy]
    · rw [callToolBody_netimg]
      simp [branchNetworkImage, Json.pyGet, hlook, Json.isFalsy]
    · rw [callToolBody_enrichfig]
      simp [branchEnrichmentFigure, Json.pyGet, hlook, Json.isFalsy]
  simp [handleCallTool, Json.pyGet, hname, hargs, hbody, sendResp, exnHandlerText]

/-- Witness for C7 at a concrete map_identifiers call with an empty
identifiers array. -/
theorem claim_C7_witness :
    ((Json.str "map_identifiers") ∈ identifierTools) ∧
    (([("name", Json.str "map_identifiers"),
        ("arguments", Json.obj [("identifiers", Json.arr [])])].lookup
      "arguments").getD (Json.obj []) = Json.obj [("identifiers", Json.arr [])]) ∧
    (handleCallTool w0 defaultConfig (some (.num 2))
        (.obj [("name", .str "map_identifiers"),
          ("arguments", .obj [("identifiers", .arr [])])]) =
      .ok ([respResult (.num 2)
        (error_payload "identifiers parameter is required and cannot be empty")], []) ∧
    ("identifiers".toList <:+:
      "Error: identifiers parameter is required and cannot be empty".toList)) :=
  ⟨by decide, by decide,
    claim_C7_amended w0 defaultConfig (.num 2) _ [("identifiers", Json.arr [])]
      (.str "map_identifiers") (by decide) rfl rfl (Or.inr (by decide))⟩

/-- Characters allowed in an RFC 3986 query component (with percent kept as
the escape lead-in). -/
def isQueryChar (c : Char) : Bool :=
  c.isAlphanum ||
    c ∈ ['-', '.', '_', '~', '!', '$', '&', '(', ')', '*', '+', ',', ';',
      '=', ':', '@', '/', '?', '%'] || c = Char.ofNat 39

/-- A string is query-encoded when every character is allowed in a query. -/
def isQueryEncoded (s : String) : Bool := s.toList.all isQueryChar

/-- Claim C9 counterexample: the builders interpolate values verbatim; an
identifier containing a space yields a URL whose query component is not
query-encoded. -/
theorem claim_C9_counterexample :
    build_network_image_url defaultConfig (.arr [.str "TP 53"]) Json.null
        Json.null Json.null Json.null (.str "functional") (.str "evidence")
        (.bool true) (.bool false) =
      .ok ("https://version-12-0.string-db.org/api/image/network" ++ "?" ++
        "identifiers=TP 53&network_type=functional&network_flavor=evidence&caller_identity=string_mcp_bridge&highres=1") ∧
    isQueryEncoded
      "identifiers=TP 53&network_type=functional&network_flavor=evidence&caller_identity=string_mcp_bridge&highres=1"
      = false :=
  ⟨rfl, by decide⟩

/-- Claim C9 amended: both image-URL builders are pure (no HTTP GET is
performed; the bridge is not consulted) and return the image endpoint URL
whose query lists the parameters in insertion order — the fixed parameters
first, then each optional parameter in code order — with values interpolated
verbatim and no percent-encoding applied. -/
theorem claim_C9_amended :
    (∀ (cfg : StringConfig) (joined : String) (sp acn awn rs nt nf hr sv : Json),
      (networkImageParams cfg joined sp acn awn rs nt nf hr sv).map Prod.fst =
        ["identifiers", "network_type", "network_flavor", "caller_identity"]
        ++ (if sp = Json.null then [] else ["species"])
        ++ (if acn = Json.null then [] else ["add_color_nodes"])
        ++ (if awn = Json.null then [] else ["add_white_nodes"])
        ++ (if rs = Json.null then [] else ["required_score"])
        ++ (if hr.isTruthy then ["highres"] else [])
        ++ (if sv.isTruthy then ["format"] else [])) ∧
    (∀ (cfg : StringConfig) (joined : String) (sp cat gbs cp nts xa hr sv : Json),
      (enrichmentFigureParams cfg joined sp cat gbs cp nts xa hr sv).map Prod.fst =
        ["identifiers", "species", "category", "caller_identity"]
        ++ (if gbs = Json.null then [] else ["group_by_similarity"])
        ++ (if cp = Json.null then [] else ["color_palette"])
        ++ (if nts = Json.null then [] else ["number_of_term_shown"])
        ++ (if xa = Json.null then [] else ["x_axis"])
        ++ (if hr.isTruthy then ["highres"] else [])
        ++ (if sv.isTruthy then ["format"] else [])) ∧
    (∀ (cfg : StringConfig) (ids sp acn awn rs nt nf hr sv : Json) (j : String),
      ids.isFalsy = false → pyJoinIds ids = .ok j →
      build_network_image_url cfg ids sp acn awn rs nt nf hr sv =
        .ok (cfg.version_url ++ "/image/network" ++ "?" ++
          renderQuery (networkImageParams cfg j sp acn awn rs nt nf hr sv))) ∧
    (∀ (cfg : StringConfig) (ids sp cat gbs cp nts xa hr sv : Json) (j : String),
      ids.isFalsy = false → pyJoinIds ids = .ok j →
      build_enrichment_figure_url cfg ids sp cat gbs cp nts xa hr sv =
        .ok (cfg.version_url ++ "/image/enrichment" ++ "?" ++
          renderQuery (enrichmentFigureParams cfg j sp cat gbs cp nts xa hr sv))) := by
  refine ⟨networkImageParams_keys, enrichmentFigureParams_keys, ?_, ?_⟩
  · intro cfg ids sp acn awn rs nt nf hr sv j hf hj
    simp [build_network_image_url, hf, hj]
  · intro cfg ids sp cat gbs cp nts xa hr sv j hf hj
    simp [build_enrichment_figure_url, hf, hj]

/-- Claim C10: a tools/call of get_network_image whose arguments omit svg
and highres invokes the builder with both True (the dispatch defaults), so
the returned image URL always ends in highres=1 and format=svg — while the
builder invoked with its own svg default of False emits no format
parameter at all. -/
theorem claim_C10_image_defaults (w : World) (cfg : StringConfig) (rid : Json)
    (kvs akvs : List (String × Json)) (ids : Json) (j : String)
    (hname : (kvs.lookup "name").getD Json.null = .str "get_network_image")
    (hargs : (kvs.lookup "arguments").getD (Json.obj []) = .obj akvs)
    (hids : akvs.lookup "identifiers" = some ids)
    (hfal : ids.isFalsy = false)
    (hjoin : pyJoinIds ids = .ok j)
    (hh : akvs.lookup "highres" = none)
    (hsvg : akvs.lookup "svg" = none)
    (hdl : akvs.lookup "download_image" = none) :
    (∃ p, handleCallTool w cfg (some rid) (.obj kvs) =
      .ok ([respResult rid (success_payload (.obj [("image_url",
        .str (p ++ "&highres=1&format=svg"))]))], [])) ∧
    (∀ sp acn awn rs nt nf hr,
      "format" ∉ (networkImageParams cfg j sp acn awn rs nt nf hr
        (Json.bool false)).map Prod.fst) := by
  constructor
  · have hmain : handleCallTool w cfg (some rid) (.obj kvs) =
        .ok ([respResult rid (success_payload (.obj [("image_url", .str (
          cfg.version_url ++ "/image/network" ++ "?" ++
          renderQuery (networkImageParams cfg j
            ((akvs.lookup "species").getD Json.null)
            ((akvs.lookup "add_color_nodes").getD Json.null)
            ((akvs.lookup "add_white_nodes").getD Json.null)
            ((akvs.lookup "required_score").getD Json.null)
            ((akvs.lookup "network_type").getD (.str "functional"))
            ((akvs.lookup "network_flavor").getD (.str "evidence"))
            (Json.bool true) (Json.bool true))))]))], []) := by
      simp only [handleCallTool, Json.pyGet, hname, hargs]
      rw [callToolBody_netimg]
      simp only [branchNetworkImage, Json.pyGet, hids, hh, hsvg, hdl,
        Option.getD_some, Option.getD_none]
      simp [build_network_image_url, hfal, hjoin, sendResp,
        show Json.isTruthy Json.null = false from rfl]
    have hsplit : ∃ X, networkImageParams cfg j
        ((akvs.lookup "species").getD Json.null)
        ((akvs.lookup "add_color_nodes").getD Json.null)
        ((akvs.lookup "add_white_nodes").getD Json.null)
        ((akvs.lookup "required_score").getD Json.null)
        ((akvs.lookup "network_type").getD (.str "functional"))
        ((akvs.lookup "network_flavor").getD (.str "evidence"))
        (Json.bool true) (Json.bool true) =
          (X ++ [("highres", Json.num 1)]) ++ [("format", Json.str "svg")] ∧
        X ≠ [] := by
      refine ⟨[("identifiers", Json.str j),
          ("network_type", (akvs.lookup "network_type").getD (.str "functional")),
          ("network_flavor", (akvs.lookup "network_flavor").getD (.str "evidence")),
          ("caller_identity", Json.str cfg.caller_identity)]
        ++ (if (akvs.lookup "species").getD Json.null = Json.null then []
            else [("species", (akvs.lookup "species").getD Json.null)])
        ++ (if (akvs.lookup "add_color_nodes").getD Json.null = Json.null then []
            else [("add_color_nodes", (akvs.lookup "add_color_nodes").getD Json.null)])
        ++ (if (akvs.lookup "add_white_nodes").getD Json.null = Json.null then []
            else [("add_white_nodes", (akvs.lookup "add_white_nodes").getD Json.null)])
        ++ (if (akvs.lookup "required_score").getD Json.null = Json.null then []
            else [("required_score", (akvs.lookup "required_score").getD Json.null)]),
        ?_, by simp⟩
      unfold networkImageParams
      simp only [show Json.isTruthy (Json.bool true) = true from rfl, ite_true]
    obtain ⟨X, hPeq, hXne⟩ := hsplit
    refine ⟨cfg.version_url ++ "/image/network" ++ "?" ++ renderQuery X, ?_⟩
    rw [hmain, hPeq]
    rw [renderQuery_append_last _ _ (by simp), renderQuery_append_last _ _ hXne]
    rw [show ("&highres=1&format=svg" : String) =
      "&" ++ (renderParam ("highres", Json.num 1) ++
        ("&" ++ renderParam ("format", Json.str "svg"))) from by decide]
    simp [String.append_assoc]
  · intro sp acn awn rs nt nf hr
    rw [networkImageParams_keys]
    simp only [show Json.isTruthy (Json.bool false) = false from rfl,
      Bool.false_eq_true, if_false]
    split_ifs <;> simp

/-- Witness for C10 at a concrete get_network_image call omitting svg,
highres and download_image. -/
theorem claim_C10_witness :
    (([("name", Json.str "get_network_image"),
        ("arguments", Json.obj [("identifiers", Json.arr [Json.str "TP53"])])].lookup
      "name").getD Json.null = Json.str "get_network_image") ∧
    (pyJoinIds (Json.arr [Json.str "TP53"]) = .ok "TP53") ∧
    ((∃ p, handleCallTool w0 defaultConfig (some (.num 9))
        (.obj [("name", .str "get_network_image"),
          ("arguments", .obj [("identifiers", .arr [.str "TP53"])])]) =
      .ok ([respResult (.num 9) (success_payload (.obj [("image_url",
        .str (p ++ "&highres=1&format=svg"))]))], [])) ∧
    (∀ sp acn awn rs nt nf hr,
      "format" ∉ (networkImageParams defaultConfig "TP53" sp acn awn rs nt nf hr
        (Json.bool false)).map Prod.fst)) :=
  ⟨by decide, by rfl,
    claim_C10_image_defaults w0 defaultConfig (.num 9) _ _ _ _
      rfl rfl rfl rfl rfl rfl rfl rfl⟩

/-- Witness for C2 at a concrete call whose body raises (empty identifiers). -/
theorem claim_C2_witness :
    ∃ payload evs, handleCallTool w0 defaultConfig (some (.num 1))
        (.obj [("name", .str "map_identifiers"), ("arguments", .obj [])]) =
        .ok ([respResult (.num 1) payload], evs) ∧
      (∀ e evs2, callToolBody w0 defaultConfig
          (([("name", Json.str "map_identifiers"),
              ("arguments", Json.obj [])].lookup "name").getD Json.null)
          (([("name", Json.str "map_identifiers"),
              ("arguments", Json.obj [])].lookup "arguments").getD (Json.obj [])) =
            (.error e, evs2) →
        payload = error_payload (exnHandlerText e) ∧
        Json.lookupD payload "isError" Json.null = Json.bool true) :=
  claim_C2_amended w0 defaultConfig (.num 1)
    [("name", Json.str "map_identifiers"), ("arguments", Json.obj [])]

/-- Witness for C3 at a concrete successful exchange. -/
theorem claim_C3_witness :
    (Event.sleep defaultConfig.delay ∈
      (bridgeGet defaultConfig w0 "version" OutputFormat.JSON []).2) ↔
    (∃ body, (bridgeGet defaultConfig w0 "version" OutputFormat.JSON []).1 =
      Except.ok body) :=
  claim_C3_amended defaultConfig w0 "version" OutputFormat.JSON []

/-- Witness for C9 at a concrete identifier list. -/
theorem claim_C9_witness :
    ((Json.arr [Json.str "TP53"]).isFalsy = false) ∧
    (pyJoinIds (Json.arr [Json.str "TP53"]) = .ok "TP53") ∧
    (build_network_image_url defaultConfig (.arr [.str "TP53"]) Json.null Json.null
        Json.null Json.null (.str "functional") (.str "evidence") (.bool true)
        (.bool false) =
      .ok (defaultConfig.version_url ++ "/image/network" ++ "?" ++
        renderQuery (networkImageParams defaultConfig "TP53" Json.null Json.null
          Json.null Json.null (.str "functional") (.str "evidence") (.bool true)
          (.bool false)))) :=
  ⟨rfl, rfl, claim_C9_amended.2.2.1 defaultConfig (.arr [.str "TP53"]) Json.null
    Json.null Json.null Json.null (.str "functional") (.str "evidence")
    (.bool true) (.bool false) "TP53" rfl rfl⟩
